import Mathlib

/-!
Shallow embedding of `src/routes/publicApiRoutes.js` from the
claude-relay-service repository: the public `POST /api/generate-key`
endpoint, its IP allow-list middleware (`ipWhitelistMiddleware`), its
HMAC signature middleware (`signatureMiddleware`) and the key-creation
handler.  JavaScript runtime values that the code inspects are modelled
by the inductive `JSValue` (with `JSNum` capturing `NaN`), JS truthiness
by `JSValue.truthy`, and `parseInt` by `parseIntJs`.  The HMAC-SHA256
hex digest and the JSON serialization of the request body are treated
as opaque inputs (a function parameter and a string field of the
request), since the routing layer only ever compares their outputs.
-/

namespace PublicApi

/-- A JavaScript number: either `NaN` or a finite value (modelled as a
rational; the endpoint only ever compares numbers against zero and adds
integers, so double rounding never matters on the inspected paths). -/
inductive JSNum where
  | nan : JSNum
  | num : ℚ → JSNum
deriving DecidableEq

/-- The JavaScript primitive values that `publicApiRoutes.js` inspects in
request-body fields.  A missing object property reads as `undefined`. -/
inductive JSValue where
  | undefined : JSValue
  | null : JSValue
  | bool : Bool → JSValue
  | number : JSNum → JSValue
  | str : String → JSValue
deriving DecidableEq

namespace JSValue

/-- JS truthiness: `undefined`, `null`, `false`, `NaN`, `0` and `""` are
falsy, everything else is truthy. -/
def truthy : JSValue → Bool
  | .undefined => false
  | .null => false
  | .bool b => b
  | .number .nan => false
  | .number (.num q) => q ≠ 0
  | .str s => s ≠ ""

/-- Models the JS test `typeof v` being the number type. -/
def isNumber : JSValue → Bool
  | .number _ => true
  | _ => false

/-- Models the JS test `typeof v` being the string type. -/
def isString : JSValue → Bool
  | .str _ => true
  | _ => false

/-- The underlying string of a string value (only read behind an
`isString` guard in the embedded code). -/
def asString : JSValue → String
  | .str s => s
  | _ => ""

end JSValue

namespace JSNum

/-- Models the JS comparison `x <= 0` on a number (`NaN <= 0` is false). -/
def le0 : JSNum → Bool
  | .nan => false
  | .num q => q ≤ 0

/-- Models the JS comparison `0 < x` on a number (`0 < NaN` is false). -/
def pos : JSNum → Bool
  | .nan => false
  | .num q => 0 < q

end JSNum

/-- The JS `ToNumber` coercion on a string (the subset relevant here): leading/trailing
whitespace ignored, empty string is `0`, an optional sign followed by
decimal digits with an optional fractional part; anything else is `NaN`.
(Hex/exponent literal forms are not exercised by this endpoint.) -/
def strToNumberJs (s : String) : JSNum :=
  let cs := (s.toList.dropWhile Char.isWhitespace).reverse
  let cs := (cs.dropWhile Char.isWhitespace).reverse
  if cs.isEmpty then .num 0
  else
    let (sign, cs) : ℚ × List Char :=
      match cs with
      | '-' :: rest => (-1, rest)
      | '+' :: rest => (1, rest)
      | _ => (1, cs)
    let intPart := cs.takeWhile fun c => '0' ≤ c ∧ c ≤ '9'
    let rest := cs.dropWhile fun c => '0' ≤ c ∧ c ≤ '9'
    let (fracPart, rest) : List Char × List Char :=
      match rest with
      | '.' :: r => (r.takeWhile fun c => '0' ≤ c ∧ c ≤ '9',
                     r.dropWhile fun c => '0' ≤ c ∧ c ≤ '9')
      | r => ([], r)
    if intPart.isEmpty ∧ fracPart.isEmpty then .nan
    else if ¬rest.isEmpty then .nan
    else
      let iv : ℚ := (intPart.foldl (fun a c => a * 10 + (c.toNat - '0'.toNat)) (0 : ℕ) : ℕ)
      let fv : ℚ := (fracPart.foldl (fun a c => a * 10 + (c.toNat - '0'.toNat)) (0 : ℕ) : ℕ)
      .num (sign * (iv + fv / (10 : ℚ) ^ fracPart.length))

/-- JS `ToNumber` on the values modelled here. -/
def toNumberJs : JSValue → JSNum
  | .undefined => .nan
  | .null => .num 0
  | .bool b => .num (if b then 1 else 0)
  | .number n => n
  | .str s => strToNumberJs s

/-- Models the JS relational comparison `v > 0` (operands coerced with
`ToNumber`; any comparison involving `NaN` is false). -/
def jsGtZero (v : JSValue) : Bool :=
  (toNumberJs v).pos

/-- A `ToInteger`-style truncation toward zero, used by `Date.setDate` on a
non-integral argument. -/
def jsTruncToInt (v : JSValue) : ℤ :=
  match toNumberJs v with
  | .nan => 0
  | .num q => if 0 ≤ q then ⌊q⌋ else -⌊-q⌋

/-- Decimal digit test used by `parseIntJs`. -/
def isDecDigit (c : Char) : Bool := '0' ≤ c ∧ c ≤ '9'

/-- Hexadecimal digit test used by `parseIntJs`. -/
def isHexDigitJs (c : Char) : Bool :=
  isDecDigit c || ('a' ≤ c ∧ c ≤ 'f') || ('A' ≤ c ∧ c ≤ 'F')

/-- Numeric value of a (decimal or hexadecimal) digit. -/
def hexDigitVal (c : Char) : ℕ :=
  if isDecDigit c then c.toNat - '0'.toNat
  else if 'a' ≤ c ∧ c ≤ 'f' then c.toNat - 'a'.toNat + 10
  else c.toNat - 'A'.toNat + 10

/-- JavaScript `parseInt(s)` (radix auto-detected): skip leading
whitespace, read an optional sign, detect a `0x`/`0X` radix-16 marker,
then take the longest digit run; no digits means `NaN`, modelled as
`none`. -/
def parseIntJs (s : String) : Option ℤ :=
  let cs := s.toList.dropWhile Char.isWhitespace
  let (sign, cs) : ℤ × List Char :=
    match cs with
    | '-' :: rest => (-1, rest)
    | '+' :: rest => (1, rest)
    | _ => (1, cs)
  let (base, cs) : ℕ × List Char :=
    match cs with
    | '0' :: 'x' :: rest => (16, rest)
    | '0' :: 'X' :: rest => (16, rest)
    | _ => (10, cs)
  let digits := cs.takeWhile fun c => if base = 16 then isHexDigitJs c else isDecDigit c
  if digits.isEmpty then none
  else some (sign * (digits.foldl (fun a c => a * base + hexDigitVal c) (0 : ℕ) : ℕ))

/-- The configuration slice `config.publicApi` read by both middlewares.
A missing `allowedIPs` reads as `[]` in the source (`|| []`), so the
list field itself models "unset" as the empty list. -/
structure Config where
  enabled : Bool
  allowedIPs : List String
  secret : String

/-- Outcome of an Express middleware: respond immediately with a status
and error message, or call `next()`. -/
inductive MWResult where
  | respond : ℕ → String → MWResult
  | next : MWResult
deriving DecidableEq

/-- The `ipWhitelistMiddleware` of lines 49-70: reject with 403 when the public API feature
is disabled; reject with 403 (logging the offending address) when a
non-empty allow-list does not contain the client IP; otherwise pass.
Returns the middleware outcome together with the log lines emitted. -/
def ipWhitelistMiddleware (config : Config) (clientIp : String) :
    MWResult × List String :=
  if ¬config.enabled then
    (.respond 403 "Public API is disabled", [])
  else if config.allowedIPs.length > 0 ∧ clientIp ∉ config.allowedIPs then
    (.respond 403 "IP not allowed",
      ["Unauthorized IP access attempt: " ++ clientIp])
  else
    (.next, [])

/-- The final signature comparison of `signatureMiddleware`: the signed
payload is `JSON.stringify(req.body) + timestamp` and the header must
equal `sha256=` followed by the hex HMAC-SHA256 digest of the payload
under the shared secret.  `hmacHex secret payload` stands for
`crypto.createHmac(sha256, secret).update(payload).digest(hex)` of line 99. -/
def checkSignature (config : Config) (hmacHex : String → String → String)
    (signature timestamp bodyJson : String) : MWResult × List String :=
  let payload := bodyJson ++ timestamp
  let expectedSignature := hmacHex config.secret payload
  if signature ≠ "sha256=" ++ expectedSignature then
    (.respond 401 "Invalid signature", ["Invalid signature in public API request"])
  else
    (.next, [])

/-- The replay check of lines 86–94: `const requestTime = parseInt(timestamp);
if (Math.abs(now - requestTime) > 300000)`.  When `parseInt` yields
`NaN` (modelled as `none`), `Math.abs(now - NaN)` is `NaN` and the `>`
comparison is false, so the check does not reject. -/
def freshnessRejects (now : ℤ) (timestamp : String) : Bool :=
  match parseIntJs timestamp with
  | some requestTime => (now - requestTime).natAbs > 300000
  | none => false

/-- The `signatureMiddleware` of lines 73-110: 401 when either header is missing (or empty,
since JS tests truthiness); 401 when the `freshnessRejects` replay
check fires; then the signature comparison of `checkSignature`. -/
def signatureMiddleware (config : Config) (hmacHex : String → String → String)
    (now : ℤ) (signature timestamp : Option String) (bodyJson : String) :
    MWResult × List String :=
  match signature, timestamp with
  | some sig, some ts =>
    if sig = "" ∨ ts = "" then
      (.respond 401 "Missing signature or timestamp", [])
    else if freshnessRejects now ts then
      (.respond 401 "Request timestamp too old or invalid", [])
    else
      checkSignature config hmacHex sig ts bodyJson
  | _, _ => (.respond 401 "Missing signature or timestamp", [])

/-- Spec-side helper: the signature header value after stripping the
mandatory `sha256=` marker (left unchanged when the marker is absent). -/
def stripSha256 (s : String) : String :=
  if s.data.take 7 = "sha256=".data then String.mk (s.data.drop 7) else s

/-- The destructured request body of `POST /api/generate-key`.  Each
field is a raw JS value; an absent property is `JSValue.undefined`. -/
structure Body where
  name : JSValue
  description : JSValue
  expirationDays : JSValue
  tokenLimit : JSValue
  dailyCostLimit : JSValue
  monthlyCostLimit : JSValue
  notifyFeishu : JSValue
  feishuWebhook : JSValue
deriving DecidableEq

/-- JS `String.prototype.trim`: strip whitespace from both ends.
(Defined over the character list so that the kernel can evaluate it.) -/
def trimJs (s : String) : String :=
  String.mk (((s.data.dropWhile Char.isWhitespace).reverse.dropWhile Char.isWhitespace).reverse)

/-- The name check of line 142: falsy, or not of string type, or empty after trimming. -/
def nameInvalid (name : JSValue) : Bool :=
  !name.truthy || !name.isString || (trimJs name.asString).length == 0

/-- The limit check of lines 149-168, `limit && (not a number || limit <= 0)`,
applied to each of `tokenLimit`, `dailyCostLimit`, `monthlyCostLimit`.
A falsy value (absent, `null`, `0`, `NaN`, `false`, `""`) skips the
check entirely. -/
def limitInvalid (limit : JSValue) : Bool :=
  limit.truthy && (!limit.isNumber || (toNumberJs limit).le0)

/-- A JS `Date`, reduced to what `setDate`/`getDate` arithmetic
observes: a civil day counter plus the time of day.  The source runs
`expiresAt.setDate(expiresAt.getDate() + expirationDays)`; for a
numeric addend `d` the day-of-month rollover of `setDate` makes the net
effect exactly an advance of `d` days with the time of day untouched,
which is what `addDays` expresses.  (A string-typed `expirationDays`
would instead concatenate with the day-of-month before `ToNumber`; the
endpoint documents the field as an integer and no claim exercises
strings there.) -/
structure JSDate where
  epochDay : ℤ
  msOfDay : ℤ
deriving DecidableEq

/-- Advance a date by whole days, preserving the time of day. -/
def JSDate.addDays (d : JSDate) (n : ℤ) : JSDate :=
  { epochDay := d.epochDay + n, msOfDay := d.msOfDay }

/-- Lines 170–175: `let expiresAt = null; if (expirationDays && expirationDays > 0)
{ expiresAt = new Date(); expiresAt.setDate(expiresAt.getDate() + expirationDays) }`.
The argument has already received its destructuring default. -/
def computeExpiresAt (expirationDays : JSValue) (now : JSDate) : Option JSDate :=
  if expirationDays.truthy ∧ jsGtZero expirationDays then
    some (now.addDays (jsTruncToInt expirationDays))
  else
    none

/-- The normalization `description?.trim() || ""` of line 180: nullish descriptions become `""`, a
string is trimmed, and any other value would raise a `TypeError`
(caught by the outer `try` of the handler), modelled as `none`. -/
def normalizeDescription : JSValue → Option String
  | .undefined => some ("")
  | .null => some ("")
  | .str s => some (trimJs s)
  | _ => none

/-- The options object passed to `apiKeyService.generateApiKey`. -/
structure ApiKeyOptions where
  name : String
  description : String
  tokenLimit : JSValue
  expiresAt : Option JSDate
  dailyCostLimit : JSValue
  monthlyCostLimit : JSValue
  createdBy : String
  activationMode : String
deriving DecidableEq

/-- The metadata fields of the adapter result (everything except the
secret), spread into `keyInfo` by `const { apiKey, ...keyInfo } = apiKeyResult`. -/
structure KeyInfo where
  id : String
  name : String
  description : String
  tokenLimit : JSValue
  dailyCostLimit : JSValue
  monthlyCostLimit : JSValue
  expiresAt : Option JSDate
  createdAt : String
  status : String
deriving DecidableEq

/-- The full result of `apiKeyService.generateApiKey`. -/
structure IssuedKey where
  apiKey : String
  keyInfo : KeyInfo
deriving DecidableEq

/-- The `data` object of the 200 response body.  `keyPref` models the
`keyPrefix` field of the source (the redacted first 8 chars plus three dots). -/
structure ResponseData where
  id : String
  name : String
  description : String
  keyPref : String
  tokenLimit : JSValue
  dailyCostLimit : JSValue
  monthlyCostLimit : JSValue
  expiresAt : Option JSDate
  createdAt : String
  status : String
deriving DecidableEq

/-- Lines 217–232: the success response is shaped from `keyInfo` plus
the redacted `keyPrefix` string only — the full secret never enters the
`data` object. -/
def mkResponseData (keyInfo : KeyInfo) (redacted : String) : ResponseData :=
  { id := keyInfo.id
    name := keyInfo.name
    description := keyInfo.description
    keyPref := redacted
    tokenLimit := keyInfo.tokenLimit
    dailyCostLimit := keyInfo.dailyCostLimit
    monthlyCostLimit := keyInfo.monthlyCostLimit
    expiresAt := keyInfo.expiresAt
    createdAt := keyInfo.createdAt
    status := keyInfo.status }

/-- The first `n` characters of a string, as `apiKey.substring(0, 8)` reads them
(code units and characters coincide on the ASCII key strings involved;
defined over the character list so that the kernel can evaluate it). -/
def firstChars (n : ℕ) (s : String) : String :=
  String.mk (s.data.take n)

/-- The redacted display form: the first 8 characters of the key followed by three dots (line 223). -/
def redact (apiKey : String) : String :=
  firstChars 8 apiKey ++ "..."

/-- The HTTP outcome of the handler: an error response
`{success:false, error}` with its status, or the 200 success response
carrying the shaped `data` and the one-time top-level `apiKey`. -/
inductive HandlerResponse where
  | failure : ℕ → String → HandlerResponse
  | success : ResponseData → String → HandlerResponse
deriving DecidableEq

/-- External collaborators of the handler: the issuance adapter
(`Except.error` models a thrown exception, `Option` the
`!apiKeyResult` null check), the outcome of
`sendApiKeyCreatedNotification`, and the clock `new Date()` reads. -/
structure HandlerDeps where
  issuance : ApiKeyOptions → Except String (Option IssuedKey)
  notifyOutcome : Except String Unit
  now : JSDate

/-- The observable outcome of one request: the HTTP response, whether
the issuance adapter was invoked, whether a notification was attempted,
and the log lines emitted. -/
structure HandlerOutput where
  response : HandlerResponse
  issuanceCalled : Bool
  notifyAttempted : Bool
  logs : List String
deriving DecidableEq

/-- Short-circuit output for a response produced before the issuance call. -/
def earlyOut (status : ℕ) (error : String) : HandlerOutput :=
  { response := .failure status error
    issuanceCalled := false
    notifyAttempted := false
    logs := [] }

/-- Lines 203–214: the best-effort Feishu notification.  When
`notifyFeishu` is truthy the notification is attempted; a throw from
`sendApiKeyCreatedNotification` is caught and only logged (that
function itself logs and rethrows, hence the two failure log lines).
Returns whether an attempt was made together with the log lines; the
response is built independently of this step. -/
def notifyStep (notifyFeishu : JSValue) (outcome : Except String Unit) (id : String) :
    Bool × List String :=
  if notifyFeishu.truthy then
    match outcome with
    | .ok _ =>
      (true, ["Sent Feishu notification for API key creation: " ++ id])
    | .error _ =>
      (true, ["Failed to send API key creation notification:",
              "Failed to send Feishu notification for API key creation:"])
  else (false, [])

/-- Lines 170–231 of the handler, reached when all four parameter
checks pass: compute the expiry, build the adapter options (a
`TypeError` from a non-string `description` hits the outer `catch`),
call the issuance adapter, attempt the best-effort notification when
`notifyFeishu` is truthy (its failure is caught and only logged), and
shape the response from `keyInfo` plus the redacted prefix and the
one-time full key. -/
def issueKey (deps : HandlerDeps) (body : Body) : HandlerOutput :=
  let expirationDays :=
    if body.expirationDays = .undefined then .number (.num 30) else body.expirationDays
  let notifyFeishu :=
    if body.notifyFeishu = .undefined then .bool true else body.notifyFeishu
  let expiresAt := computeExpiresAt expirationDays deps.now
  match normalizeDescription body.description with
  | none =>
    { response := .failure 500 "Internal server error"
      issuanceCalled := false
      notifyAttempted := false
      logs := ["Error in public API generate-key:"] }
  | some description =>
    let apiKeyOptions : ApiKeyOptions :=
      { name := trimJs body.name.asString
        description := description
        tokenLimit := body.tokenLimit
        expiresAt := expiresAt
        dailyCostLimit := body.dailyCostLimit
        monthlyCostLimit := body.monthlyCostLimit
        createdBy := "public-api"
        activationMode := "immediate" }
    match deps.issuance apiKeyOptions with
      | .error _ =>
        { response := .failure 500 "Internal server error"
          issuanceCalled := true
          notifyAttempted := false
          logs := ["Error in public API generate-key:"] }
      | .ok none =>
        { response := .failure 500 "Failed to generate API key"
          issuanceCalled := true
          notifyAttempted := false
          logs := [] }
      | .ok (some apiKeyResult) =>
        if apiKeyResult.apiKey = "" then
          { response := .failure 500 "Failed to generate API key"
            issuanceCalled := true
            notifyAttempted := false
            logs := [] }
        else
          let keyInfo := apiKeyResult.keyInfo
          let infoLog := "Public API generated new API key: " ++ keyInfo.id
          { response := .success (mkResponseData keyInfo (redact apiKeyResult.apiKey))
              apiKeyResult.apiKey
            issuanceCalled := true
            notifyAttempted := (notifyStep notifyFeishu deps.notifyOutcome keyInfo.id).1
            logs := infoLog :: (notifyStep notifyFeishu deps.notifyOutcome keyInfo.id).2 }

/-- The `POST /api/generate-key` handler body (lines 128–240), after
the two middlewares have passed: the four parameter checks run in
source order (name, then token/daily/monthly limits) and the first
failing one responds 400 without calling the adapter; otherwise
`issueKey` takes over. -/
def generateKeyHandler (deps : HandlerDeps) (body : Body) : HandlerOutput :=
  if nameInvalid body.name then
    earlyOut 400 "Name is required and must be a non-empty string"
  else if limitInvalid body.tokenLimit then
    earlyOut 400 "Token limit must be a positive number"
  else if limitInvalid body.dailyCostLimit then
    earlyOut 400 "Daily cost limit must be a positive number"
  else if limitInvalid body.monthlyCostLimit then
    earlyOut 400 "Monthly cost limit must be a positive number"
  else
    issueKey deps body

/-- One inbound request as the route sees it: source address, the two
headers (absent modelled as `none`), the parsed body, and
`JSON.stringify(req.body)` carried as an opaque string (the middleware
only feeds it to the HMAC). -/
structure RequestEnv where
  clientIp : String
  signature : Option String
  timestamp : Option String
  bodyJson : String
  body : Body

/-- The whole route: `ipWhitelistMiddleware`, then `signatureMiddleware`,
then the handler, each middleware short-circuiting with its response. -/
def handleGenerateKey (config : Config) (hmacHex : String → String → String)
    (nowMs : ℤ) (deps : HandlerDeps) (req : RequestEnv) : HandlerOutput :=
  match ipWhitelistMiddleware config req.clientIp with
  | (.respond status error, logs) =>
    { response := .failure status error
      issuanceCalled := false
      notifyAttempted := false
      logs := logs }
  | (.next, logs₁) =>
    match signatureMiddleware config hmacHex nowMs req.signature req.timestamp req.bodyJson with
    | (.respond status error, logs₂) =>
      { response := .failure status error
        issuanceCalled := false
        notifyAttempted := false
        logs := logs₁ ++ logs₂ }
    | (.next, logs₂) =>
      let out := generateKeyHandler deps req.body
      { out with logs := logs₁ ++ logs₂ ++ out.logs }

/-! ## Concrete sample data for witnesses and counterexamples -/

/-- A stand-in issuance adapter result: echoes the options back as the
metadata of the key, as the real `apiKeyService` does. -/
def okKeyInfo (opts : ApiKeyOptions) : KeyInfo :=
  { id := "key-1"
    name := opts.name
    description := opts.description
    tokenLimit := opts.tokenLimit
    dailyCostLimit := opts.dailyCostLimit
    monthlyCostLimit := opts.monthlyCostLimit
    expiresAt := opts.expiresAt
    createdAt := "2026-02-03T00:00:00+08:00"
    status := "active" }

/-- Issuance stand-in returning a fixed secret with echoed metadata. -/
def echoIssuance : ApiKeyOptions → Except String (Option IssuedKey) :=
  fun opts => .ok (some { apiKey := "cr_0123456789abcdef", keyInfo := okKeyInfo opts })

/-- Concrete dependencies used by witnesses and counterexamples. -/
def sampleDeps : HandlerDeps :=
  { issuance := echoIssuance, notifyOutcome := .ok (), now := ⟨20000, 123⟩ }

/-- A request body whose `tokenLimit` is present and equal to `0`:
present, a number, and not positive. -/
def zeroTokenBody : Body :=
  { name := .str ("Test")
    description := .undefined
    expirationDays := .number (.num 30)
    tokenLimit := .number (.num 0)
    dailyCostLimit := .undefined
    monthlyCostLimit := .undefined
    notifyFeishu := .bool false
    feishuWebhook := .undefined }

/-- A request body with several invalid parameters, among them a
non-string `name`, a non-numeric `tokenLimit` and a negative
`dailyCostLimit`. -/
def badNameBody : Body :=
  { name := .number (.num 1)
    description := .str ("d")
    expirationDays := .undefined
    tokenLimit := .str ("big")
    dailyCostLimit := .number (.num (-1))
    monthlyCostLimit := .undefined
    notifyFeishu := .undefined
    feishuWebhook := .undefined }

/-- A request body whose only flaw is a negative `dailyCostLimit`. -/
def negDailyBody : Body :=
  { name := .str ("X")
    description := .undefined
    expirationDays := .undefined
    tokenLimit := .undefined
    dailyCostLimit := .number (.num (-5))
    monthlyCostLimit := .undefined
    notifyFeishu := .undefined
    feishuWebhook := .undefined }

/-- A body with a valid name and every optional field absent. -/
def validBody : Body :=
  { name := .str ("Test")
    description := .undefined
    expirationDays := .undefined
    tokenLimit := .undefined
    dailyCostLimit := .undefined
    monthlyCostLimit := .undefined
    notifyFeishu := .undefined
    feishuWebhook := .undefined }

/-- A fixed adapter result used by the constant-issuance witnesses. -/
def constKey₁ : IssuedKey :=
  { apiKey := "cr_0123456789abcdef"
    keyInfo :=
      { id := "key-1"
        name := "Test"
        description := ""
        tokenLimit := .undefined
        dailyCostLimit := .undefined
        monthlyCostLimit := .undefined
        expiresAt := none
        createdAt := "2026-02-03T00:00:00+08:00"
        status := "active" } }

/-- Same metadata as `constKey₁`, different secret with the same first
eight characters. -/
def constKey₂ : IssuedKey :=
  { constKey₁ with apiKey := "cr_01234zzz" }

/-- Dependencies whose adapter always returns `constKey₁`. -/
def constDeps₁ : HandlerDeps :=
  { issuance := fun _ => .ok (some constKey₁), notifyOutcome := .ok (), now := ⟨20000, 123⟩ }

/-- Dependencies whose adapter always returns `constKey₂`. -/
def constDeps₂ : HandlerDeps :=
  { issuance := fun _ => .ok (some constKey₂), notifyOutcome := .ok (), now := ⟨20000, 123⟩ }

/-- Dependencies whose notification adapter throws. -/
def failNotifyDeps : HandlerDeps :=
  { issuance := fun _ => .ok (some constKey₁), notifyOutcome := .error ("boom"),
    now := ⟨20000, 123⟩ }

/-! ## Helper lemmas and claim theorems -/

lemma stripSha256_append (e : String) : stripSha256 ("sha256=" ++ e) = e := by
  have hdata : ("sha256=" ++ e).data = "sha256=".data ++ e.data := by
    simp [String.data_append]
  unfold stripSha256
  rw [hdata]
  rw [show (7 : ℕ) = ("sha256=".data).length from rfl, List.take_left, List.drop_left]
  simp

lemma issueKey_not_400 (deps : HandlerDeps) (body : Body) (msg : String) :
    (issueKey deps body).response ≠ .failure 400 msg := by
  rcases hnd : normalizeDescription body.description with _ | d
  · simp [issueKey, hnd]
  · rcases hi : deps.issuance
        { name := trimJs body.name.asString
          description := d
          tokenLimit := body.tokenLimit
          expiresAt := computeExpiresAt
            (if body.expirationDays = .undefined then .number (.num 30) else body.expirationDays)
            deps.now
          dailyCostLimit := body.dailyCostLimit
          monthlyCostLimit := body.monthlyCostLimit
          createdBy := "public-api"
          activationMode := "immediate" } with e | k
    · simp [issueKey, hnd, hi]
    · rcases k with _ | r
      · simp [issueKey, hnd, hi]
      · by_cases hk : r.apiKey = "" <;> simp [issueKey, hnd, hi, hk]

/-- Output of the handler on the success path, shared by the
success-shaped claims. -/
lemma generateKeyHandler_issued (deps : HandlerDeps) (body : Body) (desc : String)
    (r : IssuedKey)
    (hname : nameInvalid body.name = false)
    (ht : limitInvalid body.tokenLimit = false)
    (hd : limitInvalid body.dailyCostLimit = false)
    (hm : limitInvalid body.monthlyCostLimit = false)
    (hdesc : normalizeDescription body.description = some desc)
    (hiss : deps.issuance
      { name := trimJs body.name.asString
        description := desc
        tokenLimit := body.tokenLimit
        expiresAt := computeExpiresAt
          (if body.expirationDays = .undefined then .number (.num 30) else body.expirationDays)
          deps.now
        dailyCostLimit := body.dailyCostLimit
        monthlyCostLimit := body.monthlyCostLimit
        createdBy := "public-api"
        activationMode := "immediate" } = .ok (some r))
    (hk : r.apiKey ≠ "") :
    generateKeyHandler deps body =
      { response := .success (mkResponseData r.keyInfo (redact r.apiKey)) r.apiKey
        issuanceCalled := true
        notifyAttempted := (notifyStep
          (if body.notifyFeishu = .undefined then .bool true else body.notifyFeishu)
          deps.notifyOutcome r.keyInfo.id).1
        logs := ("Public API generated new API key: " ++ r.keyInfo.id) ::
          (notifyStep (if body.notifyFeishu = .undefined then .bool true else body.notifyFeishu)
            deps.notifyOutcome r.keyInfo.id).2 } := by
  simp [generateKeyHandler, hname, ht, hd, hm, issueKey, hdesc, hiss, hk]

/-- C1: for a request that passed the IP gate and carries both headers
with a fresh timestamp, a signature header whose value after stripping
the mandatory `sha256=` marker differs from the hex HMAC-SHA256 of
`serialize(body) + timestamp` under the shared secret yields HTTP 401
"Invalid signature" and never reaches the issuance adapter; a header
equal to `sha256=` followed by that digest passes the verifier. -/
theorem signature_mismatch_401 (config : Config) (hmacHex : String → String → String)
    (nowMs : ℤ) (deps : HandlerDeps) (req : RequestEnv) (sig ts : String)
    (hgate : ipWhitelistMiddleware config req.clientIp = (.next, []))
    (hsig : req.signature = some sig) (hts : req.timestamp = some ts)
    (hsig0 : sig ≠ "") (hts0 : ts ≠ "")
    (hfresh : freshnessRejects nowMs ts = false) :
    (stripSha256 sig ≠ hmacHex config.secret (req.bodyJson ++ ts) →
      handleGenerateKey config hmacHex nowMs deps req =
        { response := .failure 401 "Invalid signature", issuanceCalled := false,
          notifyAttempted := false, logs := ["Invalid signature in public API request"] }) ∧
    (sig = "sha256=" ++ hmacHex config.secret (req.bodyJson ++ ts) →
      signatureMiddleware config hmacHex nowMs req.signature req.timestamp req.bodyJson =
        (.next, [])) := by
  constructor
  · intro hne
    have hsigne : sig ≠ "sha256=" ++ hmacHex config.secret (req.bodyJson ++ ts) := by
      intro he
      exact hne (by rw [he, stripSha256_append])
    simp [handleGenerateKey, hgate, signatureMiddleware, hsig, hts, hsig0, hts0, hfresh,
      checkSignature, hsigne]
  · intro heq
    subst heq
    simp [signatureMiddleware, hsig, hts, hsig0, hts0, hfresh, checkSignature]

theorem signature_mismatch_401_witness :
    handleGenerateKey ⟨true, [], "secret"⟩ (fun _ _ => "00ff") 1000 sampleDeps
      { clientIp := "1.2.3.4", signature := some ("sha256=bad"), timestamp := some ("1000"),
        bodyJson := "\x7b\x7d", body := zeroTokenBody } =
      { response := .failure 401 "Invalid signature", issuanceCalled := false,
        notifyAttempted := false, logs := ["Invalid signature in public API request"] } :=
  (signature_mismatch_401 _ _ _ _ _ "sha256=bad" "1000" (by decide) rfl rfl (by decide)
    (by decide) (by decide)).1 (by decide)

/-- C2: with both headers present and the timestamp parsing to an
integer `t`, `|now - t| > 300000` ms yields HTTP 401 "Request timestamp
too old or invalid" whatever the signature header holds, while
`|now - t| ≤ 300000` passes the freshness check and proceeds to the
signature comparison. -/
theorem stale_timestamp_401 (config : Config) (hmacHex : String → String → String)
    (nowMs : ℤ) (deps : HandlerDeps) (req : RequestEnv) (sig ts : String) (t : ℤ)
    (hgate : ipWhitelistMiddleware config req.clientIp = (.next, []))
    (hsig : req.signature = some sig) (hts : req.timestamp = some ts)
    (hsig0 : sig ≠ "") (hts0 : ts ≠ "")
    (hparse : parseIntJs ts = some t) :
    ((nowMs - t).natAbs > 300000 →
      handleGenerateKey config hmacHex nowMs deps req =
        { response := .failure 401 "Request timestamp too old or invalid",
          issuanceCalled := false, notifyAttempted := false, logs := [] }) ∧
    ((nowMs - t).natAbs ≤ 300000 →
      signatureMiddleware config hmacHex nowMs req.signature req.timestamp req.bodyJson =
        checkSignature config hmacHex sig ts req.bodyJson) := by
  constructor
  · intro hstale
    have hf : freshnessRejects nowMs ts = true := by
      unfold freshnessRejects
      rw [hparse]
      simpa using hstale
    simp [handleGenerateKey, hgate, signatureMiddleware, hsig, hts, hsig0, hts0, hf]
  · intro hok
    have hf : freshnessRejects nowMs ts = false := by
      unfold freshnessRejects
      rw [hparse]
      simpa using Nat.not_lt.mpr hok
    simp [signatureMiddleware, hsig, hts, hsig0, hts0, hf]

theorem stale_timestamp_401_witness :
    handleGenerateKey ⟨true, [], "secret"⟩ (fun _ _ => "00ff") 400001 sampleDeps
      { clientIp := "1.2.3.4", signature := some ("sha256=00ff"), timestamp := some ("1000"),
        bodyJson := "\x7b\x7d", body := zeroTokenBody } =
      { response := .failure 401 "Request timestamp too old or invalid",
        issuanceCalled := false, notifyAttempted := false, logs := [] } :=
  (stale_timestamp_401 _ _ _ _ _ "sha256=00ff" "1000" 1000 (by decide) rfl rfl (by decide)
    (by decide) (by decide)).1 (by decide)

/-- C3: a present but non-numeric timestamp header (`parseInt` yields
`NaN`) is not rejected by the freshness check: the middleware proceeds
straight to the signature comparison and never returns the
"Request timestamp too old or invalid" error. -/
theorem nan_timestamp_passes_freshness (config : Config) (hmacHex : String → String → String)
    (nowMs : ℤ) (sig ts bodyJson : String)
    (hsig0 : sig ≠ "") (hts0 : ts ≠ "")
    (hnan : parseIntJs ts = none) :
    signatureMiddleware config hmacHex nowMs (some sig) (some ts) bodyJson =
      checkSignature config hmacHex sig ts bodyJson ∧
    (signatureMiddleware config hmacHex nowMs (some sig) (some ts) bodyJson).1 ≠
      .respond 401 "Request timestamp too old or invalid" := by
  have hf : freshnessRejects nowMs ts = false := by
    unfold freshnessRejects
    rw [hnan]
  have h1 : signatureMiddleware config hmacHex nowMs (some sig) (some ts) bodyJson =
      checkSignature config hmacHex sig ts bodyJson := by
    simp [signatureMiddleware, hsig0, hts0, hf]
  refine ⟨h1, ?_⟩
  rw [h1]
  unfold checkSignature
  by_cases hc : sig = "sha256=" ++ hmacHex config.secret (bodyJson ++ ts) <;>
    simp [hc]

theorem nan_timestamp_passes_freshness_witness :
    signatureMiddleware ⟨true, [], "s"⟩ (fun _ _ => "00ff") 999999999
        (some ("sha256=x")) (some ("abc")) "\x7b\x7d" =
      checkSignature ⟨true, [], "s"⟩ (fun _ _ => "00ff") "sha256=x" "abc" "\x7b\x7d" ∧
    (signatureMiddleware ⟨true, [], "s"⟩ (fun _ _ => "00ff") 999999999
        (some ("sha256=x")) (some ("abc")) "\x7b\x7d").1 ≠
      .respond 401 "Request timestamp too old or invalid" :=
  nan_timestamp_passes_freshness _ _ _ _ _ _ (by decide) (by decide) (by decide)

/-- C6: with the feature flag disabled, every request gets HTTP 403
"Public API is disabled" — independent of the source IP, the headers,
the body, and the adapters — and the issuance adapter is never
invoked. -/
theorem feature_disabled_403 (config : Config) (hmacHex : String → String → String)
    (nowMs : ℤ) (deps : HandlerDeps) (req : RequestEnv)
    (hdis : config.enabled = false) :
    handleGenerateKey config hmacHex nowMs deps req =
      { response := .failure 403 "Public API is disabled", issuanceCalled := false,
        notifyAttempted := false, logs := [] } := by
  simp [handleGenerateKey, ipWhitelistMiddleware, hdis]

theorem feature_disabled_403_witness :
    handleGenerateKey ⟨false, ["9.9.9.9"], "s"⟩ (fun _ _ => "h") 0 sampleDeps
      { clientIp := "9.9.9.9", signature := some ("sha256=h"), timestamp := some ("0"),
        bodyJson := "\x7b\x7d", body := zeroTokenBody } =
      { response := .failure 403 "Public API is disabled", issuanceCalled := false,
        notifyAttempted := false, logs := [] } :=
  feature_disabled_403 _ _ _ _ _ rfl

/-- C7: with the feature enabled, a source IP absent from a non-empty
allow-list gets HTTP 403 "IP not allowed" with the offending address
logged and the adapter never invoked; with an empty (or unset)
allow-list the gate passes every source IP. -/
theorem ip_gate (config : Config) (hen : config.enabled = true) :
    (∀ (hmacHex : String → String → String) (nowMs : ℤ) (deps : HandlerDeps)
        (req : RequestEnv),
        config.allowedIPs ≠ [] → req.clientIp ∉ config.allowedIPs →
        handleGenerateKey config hmacHex nowMs deps req =
          { response := .failure 403 "IP not allowed", issuanceCalled := false,
            notifyAttempted := false,
            logs := ["Unauthorized IP access attempt: " ++ req.clientIp] }) ∧
    (config.allowedIPs = [] → ∀ ip, ipWhitelistMiddleware config ip = (.next, [])) := by
  constructor
  · intro hmacHex nowMs deps req hne hnotin
    have hlen : config.allowedIPs.length > 0 := List.length_pos.mpr hne
    simp [handleGenerateKey, ipWhitelistMiddleware, hen, hlen, hnotin]
  · intro hemp ip
    simp [ipWhitelistMiddleware, hen, hemp]

theorem ip_gate_witness :
    handleGenerateKey ⟨true, ["10.0.0.1"], "s"⟩ (fun _ _ => "h") 0 sampleDeps
      { clientIp := "1.2.3.4", signature := some ("sha256=h"), timestamp := some ("0"),
        bodyJson := "\x7b\x7d", body := zeroTokenBody } =
      { response := .failure 403 "IP not allowed", issuanceCalled := false,
        notifyAttempted := false,
        logs := ["Unauthorized IP access attempt: " ++ "1.2.3.4"] } ∧
    ipWhitelistMiddleware ⟨true, [], "s"⟩ "8.8.8.8" = (.next, []) :=
  ⟨(ip_gate ⟨true, ["10.0.0.1"], "s"⟩ rfl).1 _ _ _ _ (by decide) (by decide),
   (ip_gate ⟨true, [], "s"⟩ rfl).2 rfl ("8.8.8.8")⟩

/-- C10: parameter validation runs name first, then token, daily and
monthly limits, and the first failing check fixes the 400 message: an
invalid name always yields the name error (whatever else is invalid),
and a 400 about a cost limit implies the name and every earlier limit
check passed. -/
theorem validation_order (deps : HandlerDeps) (body : Body) :
    (nameInvalid body.name = true →
      generateKeyHandler deps body =
        earlyOut 400 "Name is required and must be a non-empty string") ∧
    ((generateKeyHandler deps body).response =
        .failure 400 "Token limit must be a positive number" →
      nameInvalid body.name = false ∧ limitInvalid body.tokenLimit = true) ∧
    ((generateKeyHandler deps body).response =
        .failure 400 "Daily cost limit must be a positive number" →
      nameInvalid body.name = false ∧ limitInvalid body.tokenLimit = false ∧
        limitInvalid body.dailyCostLimit = true) ∧
    ((generateKeyHandler deps body).response =
        .failure 400 "Monthly cost limit must be a positive number" →
      nameInvalid body.name = false ∧ limitInvalid body.tokenLimit = false ∧
        limitInvalid body.dailyCostLimit = false ∧
        limitInvalid body.monthlyCostLimit = true) := by
  by_cases hn : nameInvalid body.name <;>
    by_cases ht : limitInvalid body.tokenLimit <;>
      by_cases hd : limitInvalid body.dailyCostLimit <;>
        by_cases hm : limitInvalid body.monthlyCostLimit <;>
          refine ⟨?_, ?_, ?_, ?_⟩ <;>
            simp [generateKeyHandler, earlyOut, hn, ht, hd, hm] <;>
              (intro h; exact absurd h (issueKey_not_400 deps body _))

theorem validation_order_witness :
    generateKeyHandler sampleDeps badNameBody =
      earlyOut 400 "Name is required and must be a non-empty string" ∧
    (nameInvalid negDailyBody.name = false ∧
      limitInvalid negDailyBody.tokenLimit = false ∧
      limitInvalid negDailyBody.dailyCostLimit = true) :=
  ⟨(validation_order sampleDeps badNameBody).1 (by decide),
   (validation_order sampleDeps negDailyBody).2.2.1 (by decide)⟩

/-- C4 (amended): a limit that is present with a *truthy* value but is
not a positive number draws the 400 response with its specific message
— the first such limit in source order — and the adapter is not
called; a falsy limit value (`0`, `NaN`, `false`, `""`, `null`) skips
its check entirely. -/
theorem limit_validation_requires_truthy (deps : HandlerDeps) (body : Body)
    (hname : nameInvalid body.name = false) :
    (limitInvalid body.tokenLimit = true →
      generateKeyHandler deps body =
        earlyOut 400 "Token limit must be a positive number") ∧
    (limitInvalid body.tokenLimit = false → limitInvalid body.dailyCostLimit = true →
      generateKeyHandler deps body =
        earlyOut 400 "Daily cost limit must be a positive number") ∧
    (limitInvalid body.tokenLimit = false → limitInvalid body.dailyCostLimit = false →
      limitInvalid body.monthlyCostLimit = true →
      generateKeyHandler deps body =
        earlyOut 400 "Monthly cost limit must be a positive number") := by
  refine ⟨?_, ?_, ?_⟩
  · intro h1
    simp [generateKeyHandler, hname, h1]
  · intro h1 h2
    simp [generateKeyHandler, hname, h1, h2]
  · intro h1 h2 h3
    simp [generateKeyHandler, hname, h1, h2, h3]

theorem limit_validation_requires_truthy_witness :
    generateKeyHandler sampleDeps negDailyBody =
      earlyOut 400 "Daily cost limit must be a positive number" :=
  (limit_validation_requires_truthy sampleDeps negDailyBody (by decide)).2.1
    (by decide) (by decide)

/-- C4 (counterexample): `tokenLimit: 0` is present in the body and is
not a positive number, yet the handler does not answer 400 "Token limit
must be a positive number" — `0` is falsy, the check is skipped, and
the issuance adapter is called. -/
theorem limit_zero_skips_validation :
    (generateKeyHandler sampleDeps zeroTokenBody).response ≠
      .failure 400 "Token limit must be a positive number" ∧
    (generateKeyHandler sampleDeps zeroTokenBody).issuanceCalled = true := by
  constructor
  · decide
  · rfl

lemma computeExpiresAt_pos_int (n : ℤ) (hn : 0 < n) (now : JSDate) :
    computeExpiresAt (.number (.num (n : ℚ))) now = some (now.addDays n) := by
  have h0 : (n : ℚ) ≠ 0 := by
    exact_mod_cast (by omega : n ≠ 0)
  have hq : (0 : ℚ) < (n : ℚ) := by exact_mod_cast hn
  have htr : (JSValue.number (.num (n : ℚ))).truthy = true := by
    simp [JSValue.truthy, h0]
  have hgt : jsGtZero (.number (.num (n : ℚ))) = true := by
    simp [jsGtZero, toNumberJs, JSNum.pos, hq]
  have htrunc : jsTruncToInt (.number (.num (n : ℚ))) = n := by
    simp only [jsTruncToInt, toNumberJs]
    rw [if_pos (le_of_lt hq)]
    exact Int.floor_intCast n
  simp [computeExpiresAt, htr, hgt, htrunc]

lemma computeExpiresAt_thirty (now : JSDate) :
    computeExpiresAt (.number (.num 30)) now = some (now.addDays 30) := by
  have h := computeExpiresAt_pos_int 30 (by norm_num) now
  simpa using h

lemma computeExpiresAt_zero (now : JSDate) :
    computeExpiresAt (.number (.num 0)) now = none := by
  simp [computeExpiresAt, JSValue.truthy]

/-- C5: on a valid request against an adapter that echoes the options
(as `apiKeyService` does), a positive integer `expirationDays = n`
makes the echoed expiry exactly the current date advanced by `n`
calendar days with the time of day untouched; an absent field defaults
to 30 days; `expirationDays = 0` makes it `null`, which is what the
adapter receives and the response echoes. -/
theorem expiry_computation (deps : HandlerDeps) (body : Body) (desc : String)
    (hname : nameInvalid body.name = false)
    (ht : limitInvalid body.tokenLimit = false)
    (hd : limitInvalid body.dailyCostLimit = false)
    (hm : limitInvalid body.monthlyCostLimit = false)
    (hdesc : normalizeDescription body.description = some desc)
    (hiss : ∀ opts : ApiKeyOptions, ∃ r : IssuedKey,
      deps.issuance opts = .ok (some r) ∧ r.apiKey ≠ "" ∧
      r.keyInfo.expiresAt = opts.expiresAt) :
    (∀ n : ℤ, 0 < n → body.expirationDays = .number (.num (n : ℚ)) →
      ∃ d k, (generateKeyHandler deps body).response = .success d k ∧
        d.expiresAt = some (deps.now.addDays n)) ∧
    (body.expirationDays = .undefined →
      ∃ d k, (generateKeyHandler deps body).response = .success d k ∧
        d.expiresAt = some (deps.now.addDays 30)) ∧
    (body.expirationDays = .number (.num 0) →
      ∃ d k, (generateKeyHandler deps body).response = .success d k ∧
        d.expiresAt = none) := by
  obtain ⟨r, hr, hrk, hre⟩ := hiss
    { name := trimJs body.name.asString
      description := desc
      tokenLimit := body.tokenLimit
      expiresAt := computeExpiresAt
        (if body.expirationDays = .undefined then .number (.num 30) else body.expirationDays)
        deps.now
      dailyCostLimit := body.dailyCostLimit
      monthlyCostLimit := body.monthlyCostLimit
      createdBy := "public-api"
      activationMode := "immediate" }
  have e₁ := generateKeyHandler_issued deps body desc r hname ht hd hm hdesc hr hrk
  have hda : (mkResponseData r.keyInfo (redact r.apiKey)).expiresAt = r.keyInfo.expiresAt := rfl
  refine ⟨?_, ?_, ?_⟩
  · intro n hn he
    refine ⟨mkResponseData r.keyInfo (redact r.apiKey), r.apiKey, by rw [e₁], ?_⟩
    rw [hda, hre]
    show computeExpiresAt
      (if body.expirationDays = .undefined then .number (.num 30) else body.expirationDays)
      deps.now = some (deps.now.addDays n)
    rw [he]
    rw [show (if JSValue.number (.num (n : ℚ)) = .undefined then JSValue.number (.num 30)
        else JSValue.number (.num (n : ℚ))) = JSValue.number (.num (n : ℚ)) from by simp]
    exact computeExpiresAt_pos_int n hn deps.now
  · intro he
    refine ⟨mkResponseData r.keyInfo (redact r.apiKey), r.apiKey, by rw [e₁], ?_⟩
    rw [hda, hre]
    show computeExpiresAt
      (if body.expirationDays = .undefined then .number (.num 30) else body.expirationDays)
      deps.now = some (deps.now.addDays 30)
    rw [he]
    rw [if_pos rfl]
    exact computeExpiresAt_thirty deps.now
  · intro he
    refine ⟨mkResponseData r.keyInfo (redact r.apiKey), r.apiKey, by rw [e₁], ?_⟩
    rw [hda, hre]
    show computeExpiresAt
      (if body.expirationDays = .undefined then .number (.num 30) else body.expirationDays)
      deps.now = none
    rw [he]
    rw [show (if JSValue.number (.num 0) = .undefined then JSValue.number (.num 30)
        else JSValue.number (.num 0)) = JSValue.number (.num 0) from by simp]
    exact computeExpiresAt_zero deps.now

theorem expiry_computation_witness :
    ∃ d k, (generateKeyHandler sampleDeps validBody).response = .success d k ∧
      d.expiresAt = some (JSDate.addDays ⟨20000, 123⟩ 30) :=
  (expiry_computation sampleDeps validBody ("") (by decide) (by decide) (by decide)
    (by decide) (by decide)
    (fun opts => ⟨⟨"cr_0123456789abcdef", okKeyInfo opts⟩, rfl,
      (by decide : ("cr_0123456789abcdef" : String) ≠ ""), rfl⟩)).2.1 rfl

/-- C8: the success response is internally consistent and redacting:
`data.keyPrefix` is the first 8 characters of the top-level `apiKey`
followed by `"..."`, and the `data` object depends on the secret only
through that 8-character prefix — two issuances agreeing on metadata
and on the first 8 characters of the secret produce identical `data`,
so the full secret appears only once, as the top-level `apiKey`. -/
theorem response_secret_redaction (deps₁ deps₂ : HandlerDeps) (body : Body) (desc : String)
    (hname : nameInvalid body.name = false)
    (ht : limitInvalid body.tokenLimit = false)
    (hd : limitInvalid body.dailyCostLimit = false)
    (hm : limitInvalid body.monthlyCostLimit = false)
    (hdesc : normalizeDescription body.description = some desc)
    (r₁ r₂ : IssuedKey)
    (h₁ : ∀ opts, deps₁.issuance opts = .ok (some r₁))
    (h₂ : ∀ opts, deps₂.issuance opts = .ok (some r₂))
    (hk₁ : r₁.apiKey ≠ "") (hk₂ : r₂.apiKey ≠ "")
    (hinfo : r₁.keyInfo = r₂.keyInfo)
    (hpre : firstChars 8 r₁.apiKey = firstChars 8 r₂.apiKey) :
    ∃ d : ResponseData,
      (generateKeyHandler deps₁ body).response = .success d r₁.apiKey ∧
      (generateKeyHandler deps₂ body).response = .success d r₂.apiKey ∧
      d.keyPref = firstChars 8 r₁.apiKey ++ "..." := by
  have e₁ := generateKeyHandler_issued deps₁ body desc r₁ hname ht hd hm hdesc (h₁ _) hk₁
  have e₂ := generateKeyHandler_issued deps₂ body desc r₂ hname ht hd hm hdesc (h₂ _) hk₂
  have hred : redact r₂.apiKey = redact r₁.apiKey := by
    unfold redact
    rw [hpre]
  refine ⟨mkResponseData r₁.keyInfo (redact r₁.apiKey), by rw [e₁], ?_, rfl⟩
  rw [e₂]
  rw [show mkResponseData r₂.keyInfo (redact r₂.apiKey) =
    mkResponseData r₁.keyInfo (redact r₁.apiKey) from by rw [← hinfo, hred]]

theorem response_secret_redaction_witness :
    ∃ d : ResponseData,
      (generateKeyHandler constDeps₁ validBody).response = .success d constKey₁.apiKey ∧
      (generateKeyHandler constDeps₂ validBody).response = .success d constKey₂.apiKey ∧
      d.keyPref = firstChars 8 constKey₁.apiKey ++ "..." :=
  response_secret_redaction constDeps₁ constDeps₂ validBody ("") (by decide) (by decide)
    (by decide) (by decide) (by decide) constKey₁ constKey₂ (fun _ => rfl) (fun _ => rfl)
    (by decide) (by decide) rfl (by decide)

/-- C9: when issuance succeeds but the notification adapter throws
(with `notifyFeishu` truthy), the response is still the full 200
success payload with the complete `apiKey`; the failure is only
recorded in the logs. -/
theorem notify_failure_still_200 (deps : HandlerDeps) (body : Body) (desc : String)
    (r : IssuedKey) (e : String)
    (hname : nameInvalid body.name = false)
    (ht : limitInvalid body.tokenLimit = false)
    (hd : limitInvalid body.dailyCostLimit = false)
    (hm : limitInvalid body.monthlyCostLimit = false)
    (hdesc : normalizeDescription body.description = some desc)
    (hiss : ∀ opts, deps.issuance opts = .ok (some r))
    (hk : r.apiKey ≠ "")
    (hnf : (if body.notifyFeishu = .undefined then JSValue.bool true
        else body.notifyFeishu).truthy = true)
    (hthrow : deps.notifyOutcome = .error e) :
    (generateKeyHandler deps body).response =
      .success (mkResponseData r.keyInfo (redact r.apiKey)) r.apiKey ∧
    (generateKeyHandler deps body).notifyAttempted = true ∧
    "Failed to send Feishu notification for API key creation:" ∈
      (generateKeyHandler deps body).logs := by
  have e₁ := generateKeyHandler_issued deps body desc r hname ht hd hm hdesc (hiss _) hk
  rw [e₁]
  refine ⟨rfl, ?_, ?_⟩
  · simp [notifyStep, hnf, hthrow]
  · simp [notifyStep, hnf, hthrow]

theorem notify_failure_still_200_witness :
    (generateKeyHandler failNotifyDeps validBody).response =
      .success (mkResponseData constKey₁.keyInfo (redact constKey₁.apiKey))
        constKey₁.apiKey ∧
    (generateKeyHandler failNotifyDeps validBody).notifyAttempted = true ∧
    "Failed to send Feishu notification for API key creation:" ∈
      (generateKeyHandler failNotifyDeps validBody).logs :=
  notify_failure_still_200 failNotifyDeps validBody ("") constKey₁ ("boom") (by decide)
    (by decide) (by decide) (by decide) (by decide) (fun _ => rfl) (by decide)
    (by decide) rfl

end PublicApi
